import Mathlib

/-!
# Verification of the tao platform event-loop core

Shallow embedding, in Lean 4, of the event-loop core of the `tao` windowing
library (files `src/platform_impl/windows/event_loop.rs` and
`src/platform_impl/linux/x11.rs`), together with proofs of the behavioural
properties stated in the design specification.

Modelling conventions:

* Machine integers are modelled as `Nat`/`Int`; overflow-sensitive operations
  (the `u64` checked arithmetic in `dur2timeout`, the saturating `DWORD`
  subtraction in `wait_thread`) are made explicit.
* `f64` arithmetic is modelled over `ℚ`; the casts `as u32` / `as LONG`
  performed by the source on non-negative in-range values are modelled by
  `Int.toNat` and truncation toward zero respectively.
* Native side effects (posting a message, performing the bounded native wait)
  are reified as data in the result of the modelled step functions.
* Functions of the repository that live outside the provided source files
  (the dpi conversion helpers, the keyboard layout decoding tables) are
  either universally quantified over or modelled from the specification;
  each such definition says so in its doc string.
-/

set_option autoImplicit false

/-! ## C1: pointer pressure normalization (`normalize_pointer_pressure`) -/

/-- Force as emitted by the windows backend. The source type has further
variants on other platforms; the windows code path only ever constructs
`Normalized`. The `f64` payload is modelled as `ℚ` (the source value
`pressure as f64 / 1024.0` is exact in binary floating point for
`pressure ≤ 1024`). -/
inductive Force where
  | Normalized (value : ℚ)
deriving DecidableEq, Repr

/-- Model of `normalize_pointer_pressure` (event_loop.rs, lines 701-706):
`match pressure { 1..=1024 => Some(Force::Normalized(pressure as f64 / 1024.0)), _ => None }`. -/
def normalize_pointer_pressure (pressure : Nat) : Option Force :=
  if 1 ≤ pressure ∧ pressure ≤ 1024 then
    some (Force.Normalized ((pressure : ℚ) / 1024))
  else
    none

/-! ## C6: X connection error slot (`XConnection::check_errors`, `ignore_error`) -/

/-- Model of the `XError` record built by `x_error_callback` (x11.rs). -/
structure XError where
  description : String
  error_code : Nat
  request_code : Nat
  minor_code : Nat
deriving DecidableEq, Repr

/-- Model of `XConnection::check_errors` (x11.rs, lines 107-114): takes the
latest error out of the slot (leaving `None`) and returns it as `Err`,
or `Ok(())` when the slot is empty. The first component is the returned
value, the second the new contents of `latest_error`. -/
def check_errors (latest_error : Option XError) : Except XError Unit × Option XError :=
  match latest_error with
  | some error => (Except.error error, none)
  | none => (Except.ok (), none)

/-- Model of `XConnection::ignore_error` (x11.rs, lines 118-120):
`*self.latest_error.lock() = None`. -/
def ignore_error (_latest_error : Option XError) : Option XError := none

/-- Model of the slot write performed by `x_error_callback` (x11.rs, line 37):
`*xconn.latest_error.lock() = Some(error)`, i.e. what a failing native call
does to the slot. -/
def x_error_callback_record (error : XError) (_latest_error : Option XError) :
    Option XError :=
  some error

/-! ## C7: wait-thread request handling (`wait_thread`, lines 360-364) -/

/-- Messages of interest received by the wait thread. `WaitUntil` carries the
deadline instant (modelled as nanoseconds); `Other` stands for every message
that is neither `WAIT_UNTIL_MSG_ID` nor `CANCEL_WAIT_UNTIL_MSG_ID`. -/
inductive WaitThreadMsg where
  | WaitUntil (t : Nat)
  | CancelWaitUntil
  | Other
deriving DecidableEq, Repr

/-- Model of the message dispatch in `wait_thread` (event_loop.rs, lines
360-364): a `WAIT_UNTIL_MSG_ID` message overwrites `wait_until_opt` with the
new deadline, a `CANCEL_WAIT_UNTIL_MSG_ID` message clears it, and any other
message leaves it unchanged. -/
def handle_wait_thread_msg (msg : WaitThreadMsg) (wait_until_opt : Option Nat) :
    Option Nat :=
  match msg with
  | WaitThreadMsg.WaitUntil t => some t
  | WaitThreadMsg.CancelWaitUntil => none
  | WaitThreadMsg.Other => wait_until_opt

/-! ## C10: duration-to-timeout conversion (`dur2timeout`, lines 393-420) -/

/-- Largest value of a `u64`. -/
def U64_MAX : Nat := 18446744073709551615

/-- Largest value of a `DWORD` (`u32`). -/
def DWORD_MAX : Nat := 4294967295

/-- Value of `winbase::INFINITE` (numerically equal to `DWORD_MAX`). -/
def INFINITE : Nat := 4294967295

/-- Model of `u64::checked_mul`. -/
def checked_mul_u64 (a b : Nat) : Option Nat :=
  if a * b ≤ U64_MAX then some (a * b) else none

/-- Model of `u64::checked_add`. -/
def checked_add_u64 (a b : Nat) : Option Nat :=
  if a + b ≤ U64_MAX then some (a + b) else none

/-- Model of `std::time::Duration`: a (seconds, subsecond nanoseconds) pair.
The type invariant of the source type is `subsec_nanos < 1000000000`. -/
structure Duration where
  secs : Nat
  subsec_nanos : Nat
deriving DecidableEq, Repr

/-- Model of `dur2timeout` (event_loop.rs, lines 393-420): convert a duration
to a `DWORD` millisecond timeout, rounding nanoseconds up and collapsing to
`INFINITE` on any intermediate `u64` overflow or when the millisecond count
exceeds `DWORD_MAX`. -/
def dur2timeout (dur : Duration) : Nat :=
  ((((checked_mul_u64 dur.secs 1000).bind fun ms =>
        (checked_add_u64 ms (dur.subsec_nanos / 1000000)).bind fun ms =>
          checked_add_u64 ms
            (if dur.subsec_nanos % 1000000 > 0 then 1 else 0)).map
      fun ms => if ms > DWORD_MAX then INFINITE else ms).getD
    INFINITE)

/-- Total number of milliseconds of a duration, rounded up (the reference
value the specification describes). -/
def duration_millis_ceil (dur : Duration) : Nat :=
  (dur.secs * 1000000000 + dur.subsec_nanos + 999999) / 1000000

/-! ## C5: the armed bounded wait of the wait thread (lines 366-387) -/

/-- Number of nanoseconds in a second. -/
def NANOS_PER_SEC : Nat := 1000000000

/-- Duration between two instants measured in nanoseconds, as the
(seconds, subsecond nanoseconds) pair `Instant` subtraction produces. -/
def duration_of_nanos (n : Nat) : Duration :=
  { secs := n / NANOS_PER_SEC, subsec_nanos := n % NANOS_PER_SEC }

/-- Wake messages the wait thread can post to the main thread's message
target window. -/
inductive WaitThreadPost where
  | ProcessNewEvents
deriving DecidableEq, Repr

/-- Outcome of one pass through the armed-wait section of `wait_thread`:
which timeout (if any) was passed to the bounded native wait
`MsgWaitForMultipleObjectsEx`, which messages were posted to the main
thread's message target, and the new value of `wait_until_opt`. -/
structure ArmedWaitOutcome where
  native_wait_timeout : Option Nat
  posts : List WaitThreadPost
  wait_until_opt : Option Nat
deriving DecidableEq, Repr

/-- Model of the `if let Some(wait_until) = wait_until_opt` block of
`wait_thread` (event_loop.rs, lines 366-387). `wait_timed_out` records
whether the bounded native wait returned `WAIT_TIMEOUT` (as opposed to being
woken by an incoming message); the `DWORD` subtraction `saturating_sub(1)`
is `Nat` subtraction. -/
def wait_thread_armed_step (wait_until now : Nat) (wait_timed_out : Bool) :
    ArmedWaitOutcome :=
  if now < wait_until then
    let timeout := dur2timeout (duration_of_nanos (wait_until - now)) - 1
    if wait_timed_out then
      { native_wait_timeout := some timeout
        posts := [WaitThreadPost.ProcessNewEvents]
        wait_until_opt := none }
    else
      { native_wait_timeout := some timeout
        posts := []
        wait_until_opt := some wait_until }
  else
    { native_wait_timeout := none
      posts := [WaitThreadPost.ProcessNewEvents]
      wait_until_opt := none }

/-! ## C4: DPI-change geometry (`WM_DPICHANGED` arm, lines 1653-1859) -/

/-- Physical-to-logical conversion at a scale factor.
Modelled from the spec: the dpi conversion helpers of this repository
(`dpi.rs`, `PhysicalSize::to_logical`) are not among the provided source
files; a logical coordinate is the physical coordinate divided by the scale
factor, computed here over `ℚ` in place of `f64`. -/
def to_logical (physical : ℚ) (scale_factor : ℚ) : ℚ :=
  physical / scale_factor

/-- Logical-to-physical conversion at a scale factor.
Modelled from the spec: the dpi conversion helpers of this repository
(`dpi.rs`, `LogicalSize::to_physical::<u32>`) are not among the provided
source files; the physical coordinate is the logical coordinate times the
scale factor, rounded to the nearest integer, then cast to an unsigned
integer (for the non-negative in-range values at play, `Int.toNat`). -/
def to_physical (logical : ℚ) (scale_factor : ℚ) : Nat :=
  (round (logical * scale_factor)).toNat

/-- Model of the new-inner-size computation of the `WM_DPICHANGED` arm
(event_loop.rs, lines 1660-1728): `none` models the early return taken when
the scale factor did not change; otherwise `allow_resize` is
`fullscreen.is_none() && !is_maximized(window)`, and the new physical inner
size preserves the logical size when resizing is allowed and is kept as-is
otherwise. -/
def dpi_changed_new_inner_size (old_scale_factor new_scale_factor : ℚ)
    (fullscreen is_maximized : Bool)
    (old_physical_inner_size : Nat × Nat) : Option (Nat × Nat) :=
  if new_scale_factor = old_scale_factor then
    none
  else
    let allow_resize := !fullscreen && !is_maximized
    some
      (match allow_resize with
        | true =>
          (to_physical (to_logical old_physical_inner_size.1 old_scale_factor)
              new_scale_factor,
            to_physical (to_logical old_physical_inner_size.2 old_scale_factor)
              new_scale_factor)
        | false => old_physical_inner_size)

/-- Model of the win32 `RECT` (left, top, right, bottom). -/
structure Rect where
  left : Int
  top : Int
  right : Int
  bottom : Int
deriving DecidableEq, Repr

/-- Truncation toward zero, modelling the Rust cast `as LONG` applied to an
in-range `f64`. -/
def trunc_as_long (q : ℚ) : Int :=
  if 0 ≤ q then ⌊q⌋ else ⌈q⌉

/-- Cursor ratio within the suggested rectangle, as computed by the
`WM_DPICHANGED` dragging branch (event_loop.rs, lines 1778-1779):
`(cursor_pos.x - suggested_rect.left) / (suggested_rect.right - suggested_rect.left)`
over `f64`, here over `ℚ`. -/
def suggested_cursor_horizontal_ratio (cursor_x : Int) (suggested_rect : Rect) :
    ℚ :=
  ((cursor_x : ℚ) - (suggested_rect.left : ℚ)) /
    ((suggested_rect.right : ℚ) - (suggested_rect.left : ℚ))

/-- Model of the `bias` computation of the dragging branch (event_loop.rs,
lines 1772-1786). -/
def dragging_bias (cursor_x : Int) (suggested_rect conservative_rect : Rect) :
    Int :=
  (cursor_x -
      trunc_as_long
        (suggested_cursor_horizontal_ratio cursor_x suggested_rect *
          ((conservative_rect.right : ℚ) - (conservative_rect.left : ℚ)))) -
    conservative_rect.left

/-- Model of the application of the bias to the conservative rectangle
(event_loop.rs, lines 1787-1788): both horizontal edges are offset by the
bias. -/
def apply_dragging_bias (cursor_x : Int) (suggested_rect conservative_rect : Rect) :
    Rect :=
  let bias := dragging_bias cursor_x suggested_rect conservative_rect
  { conservative_rect with
    left := conservative_rect.left + bias
    right := conservative_rect.right + bias }

/-! ## Theorems -/

/-- C1: for every raw pointer pressure reading `p`, if `1 ≤ p ≤ 1024` then
`normalize_pointer_pressure p` is the normalized force `p / 1024`; if
`p = 0` or `p > 1024` it returns no force data at all (never a clamped
value). -/
theorem normalize_pointer_pressure_spec (p : Nat) :
    (1 ≤ p → p ≤ 1024 →
      normalize_pointer_pressure p = some (Force.Normalized ((p : ℚ) / 1024))) ∧
    (p = 0 ∨ 1024 < p → normalize_pointer_pressure p = none) := by
  constructor
  · intro h1 h2
    simp [normalize_pointer_pressure, h1, h2]
  · intro h
    rcases h with h | h
    · subst h
      simp [normalize_pointer_pressure]
    · have : ¬(1 ≤ p ∧ p ≤ 1024) := by omega
      simp [normalize_pointer_pressure, this]

/-- C1 witness: concrete evaluations of the two branches, at `p = 512`
(in range) and `p = 2000` (out of range). -/
theorem normalize_pointer_pressure_spec_witness :
    normalize_pointer_pressure 512 = some (Force.Normalized ((512 : ℚ) / 1024)) ∧
    normalize_pointer_pressure 2000 = none :=
  ⟨(normalize_pointer_pressure_spec 512).1 (by decide) (by decide),
   (normalize_pointer_pressure_spec 2000).2 (Or.inr (by decide))⟩

/-- C6: `check_errors` atomically takes and clears the latest recorded error:
after a native call records an error it returns that error and empties the
slot, a second poll (with no intervening record) returns `Ok`, polling after
`ignore_error` returns `Ok`, and a newer recorded error replaces the older
one, so at most one pending error is ever retained. -/
theorem check_errors_spec (e : XError) (slot : Option XError) :
    (check_errors (x_error_callback_record e slot)).1 = Except.error e ∧
    (check_errors (x_error_callback_record e slot)).2 = none ∧
    (check_errors (check_errors slot).2).1 = Except.ok () ∧
    (check_errors (ignore_error slot)).1 = Except.ok () ∧
    (∀ e2 : XError,
      x_error_callback_record e2 (x_error_callback_record e slot) = some e2) := by
  refine ⟨rfl, rfl, ?_, rfl, fun e2 => rfl⟩
  cases slot <;> rfl

/-- C7: `wait_thread` holds at most one outstanding deadline (its state is a
single `Option`): a newer wake-at request overwrites whatever was pending
(the old deadline is discarded, never queued), a cancel request clears the
pending deadline, and a cancel request arriving when no wait is armed leaves
the state unchanged (a total no-op, so it cannot crash the thread). -/
theorem handle_wait_thread_msg_spec (t : Nat) (pending : Option Nat) :
    handle_wait_thread_msg (WaitThreadMsg.WaitUntil t) pending = some t ∧
    handle_wait_thread_msg WaitThreadMsg.CancelWaitUntil pending = none ∧
    handle_wait_thread_msg WaitThreadMsg.CancelWaitUntil none = none ∧
    handle_wait_thread_msg WaitThreadMsg.Other pending = pending :=
  ⟨rfl, rfl, rfl, rfl⟩

/-- Arithmetic core of C10: on a well-formed duration the checked pipeline of
`dur2timeout` computes exactly the rounded-up millisecond count whenever no
overflow occurs. -/
theorem duration_millis_ceil_eq (d : Duration) (_h : d.subsec_nanos < 1000000000) :
    duration_millis_ceil d =
      d.secs * 1000 + d.subsec_nanos / 1000000 +
        (if d.subsec_nanos % 1000000 > 0 then 1 else 0) := by
  unfold duration_millis_ceil
  rcases Nat.eq_zero_or_pos (d.subsec_nanos % 1000000) with h0 | h0
  · rw [if_neg (by omega)]
    omega
  · rw [if_pos h0]
    omega

/-- C10: for every well-formed duration `d` (subsecond nanoseconds below one
second), `dur2timeout d` is `d` expressed in whole milliseconds rounded up
whenever that count fits in a `DWORD`, and `INFINITE` otherwise (which
covers both the explicit `> DWORD_MAX` check and every intermediate `u64`
overflow); the function is total. -/
theorem dur2timeout_spec (d : Duration) (h : d.subsec_nanos < 1000000000) :
    dur2timeout d =
      if duration_millis_ceil d ≤ DWORD_MAX then duration_millis_ceil d
      else INFINITE := by
  have hceil := duration_millis_ceil_eq d h
  unfold dur2timeout checked_mul_u64 checked_add_u64
  by_cases h1 : d.secs * 1000 ≤ U64_MAX
  · by_cases h2 : d.secs * 1000 + d.subsec_nanos / 1000000 ≤ U64_MAX
    · by_cases h3 :
          d.secs * 1000 + d.subsec_nanos / 1000000 +
            (if d.subsec_nanos % 1000000 > 0 then 1 else 0) ≤ U64_MAX
      · rw [if_pos h1, Option.some_bind, if_pos h2, Option.some_bind, if_pos h3,
          Option.map_some', Option.getD_some]
        rw [hceil]
        unfold U64_MAX at *
        unfold DWORD_MAX INFINITE
        split_ifs <;> omega
      · rw [if_pos h1, Option.some_bind, if_pos h2, Option.some_bind, if_neg h3,
          Option.map_none', Option.getD_none]
        rw [← hceil] at h3
        unfold U64_MAX at h3
        unfold DWORD_MAX INFINITE
        rw [if_neg (by omega)]
    · rw [if_pos h1, Option.some_bind, if_neg h2, Option.none_bind,
        Option.map_none', Option.getD_none]
      rw [hceil]
      unfold U64_MAX at h2
      unfold DWORD_MAX INFINITE
      rw [if_neg (by split_ifs <;> omega)]
  · rw [if_neg h1, Option.none_bind, Option.map_none', Option.getD_none]
    rw [hceil]
    unfold U64_MAX at h1
    unfold DWORD_MAX INFINITE
    rw [if_neg (by split_ifs <;> omega)]

/-- C10 witness: 1 second and 500000 nanoseconds rounds up to 1001
milliseconds. -/
theorem dur2timeout_spec_witness :
    dur2timeout { secs := 1, subsec_nanos := 500000 } = 1001 := by
  have h := dur2timeout_spec { secs := 1, subsec_nanos := 500000 } (by decide)
  rw [h]
  decide

/-- C5: when the wait thread is armed with deadline `T` and `now < T`, it
performs the bounded native wait with timeout `dur2timeout (T - now)` minus
one millisecond, `Nat`-saturating at zero (and, absent overflow, that is the
rounded-up millisecond count of `T - now` minus one); when that bounded wait
times out, or when `now` is already at or past `T`, it posts exactly one
process-new-events message to the main thread's message target and disarms
(`wait_until_opt` becomes `none`); a wait woken for another reason stays
armed on the same deadline. -/
theorem wait_thread_armed_step_spec (T now : Nat) (wait_timed_out : Bool) :
    (now < T →
      (wait_thread_armed_step T now wait_timed_out).native_wait_timeout =
        some (dur2timeout (duration_of_nanos (T - now)) - 1)) ∧
    (now < T → duration_millis_ceil (duration_of_nanos (T - now)) ≤ DWORD_MAX →
      (wait_thread_armed_step T now wait_timed_out).native_wait_timeout =
        some (duration_millis_ceil (duration_of_nanos (T - now)) - 1)) ∧
    (now < T → wait_timed_out = true →
      (wait_thread_armed_step T now wait_timed_out).posts =
          [WaitThreadPost.ProcessNewEvents] ∧
        (wait_thread_armed_step T now wait_timed_out).wait_until_opt = none) ∧
    (now < T → wait_timed_out = false →
      (wait_thread_armed_step T now wait_timed_out).posts = [] ∧
        (wait_thread_armed_step T now wait_timed_out).wait_until_opt = some T) ∧
    (T ≤ now →
      wait_thread_armed_step T now wait_timed_out =
        { native_wait_timeout := none
          posts := [WaitThreadPost.ProcessNewEvents]
          wait_until_opt := none }) := by
  have hnanos : (duration_of_nanos (T - now)).subsec_nanos < 1000000000 := by
    show (T - now) % NANOS_PER_SEC < 1000000000
    unfold NANOS_PER_SEC
    omega
  refine ⟨?_, ?_, ?_, ?_, ?_⟩
  · intro hlt
    unfold wait_thread_armed_step
    rw [if_pos hlt]
    cases wait_timed_out <;> rfl
  · intro hlt hfit
    unfold wait_thread_armed_step
    rw [if_pos hlt]
    have := dur2timeout_spec (duration_of_nanos (T - now)) hnanos
    rw [if_pos hfit] at this
    cases wait_timed_out <;> simp [this]
  · intro hlt htimeout
    subst htimeout
    unfold wait_thread_armed_step
    rw [if_pos hlt]
    exact ⟨rfl, rfl⟩
  · intro hlt htimeout
    subst htimeout
    unfold wait_thread_armed_step
    rw [if_pos hlt]
    exact ⟨rfl, rfl⟩
  · intro hge
    unfold wait_thread_armed_step
    rw [if_neg (by omega)]

/-- C5 witness: armed with a deadline 5 milliseconds away, the bounded wait
gets a 4 millisecond timeout, and on timing out the thread posts exactly one
process-new-events message and disarms; an already-passed deadline posts and
disarms without waiting. -/
theorem wait_thread_armed_step_spec_witness :
    (wait_thread_armed_step 5000000 0 true).native_wait_timeout = some 4 ∧
    (wait_thread_armed_step 5000000 0 true).posts =
        [WaitThreadPost.ProcessNewEvents] ∧
    (wait_thread_armed_step 5000000 0 true).wait_until_opt = none ∧
    wait_thread_armed_step 7 10 false =
      { native_wait_timeout := none
        posts := [WaitThreadPost.ProcessNewEvents]
        wait_until_opt := none } := by
  have h := wait_thread_armed_step_spec 5000000 0 true
  have h2 := (h.2.2.1 (by decide) rfl)
  refine ⟨?_, h2.1, h2.2, (wait_thread_armed_step_spec 7 10 false).2.2.2.2 (by decide)⟩
  have h1 := h.2.1 (by decide) (by decide)
  rw [h1]
  decide

/-- C4: on a DPI-change notification with a changed scale factor, when the
window is neither fullscreen nor maximized the new physical inner size is
the old physical inner size converted to logical coordinates at the old
scale factor and back to physical at the new one; and when the window is
being interactively dragged the rectangle is offset by the computed bias so
that its width is unchanged and the cursor's horizontal offset into the
rectangle equals the suggested cursor ratio times the (unchanged) width,
truncated to an integer: the cursor's relative horizontal position in the
title area is preserved. -/
theorem dpi_changed_geometry_spec (old_sf new_sf : ℚ)
    (fullscreen is_maximized : Bool) (old_size : Nat × Nat) (cursor_x : Int)
    (suggested_rect conservative_rect : Rect) :
    (new_sf ≠ old_sf → fullscreen = false → is_maximized = false →
      dpi_changed_new_inner_size old_sf new_sf fullscreen is_maximized old_size =
        some (to_physical (to_logical old_size.1 old_sf) new_sf,
          to_physical (to_logical old_size.2 old_sf) new_sf)) ∧
    ((apply_dragging_bias cursor_x suggested_rect conservative_rect).right -
        (apply_dragging_bias cursor_x suggested_rect conservative_rect).left =
      conservative_rect.right - conservative_rect.left) ∧
    (cursor_x -
        (apply_dragging_bias cursor_x suggested_rect conservative_rect).left =
      trunc_as_long
        (suggested_cursor_horizontal_ratio cursor_x suggested_rect *
          (((apply_dragging_bias cursor_x suggested_rect conservative_rect).right -
              (apply_dragging_bias cursor_x suggested_rect conservative_rect).left :
            Int) : ℚ))) := by
  have hw : (apply_dragging_bias cursor_x suggested_rect conservative_rect).right -
      (apply_dragging_bias cursor_x suggested_rect conservative_rect).left =
      conservative_rect.right - conservative_rect.left := by
    show (conservative_rect.right +
          dragging_bias cursor_x suggested_rect conservative_rect) -
        (conservative_rect.left +
          dragging_bias cursor_x suggested_rect conservative_rect) =
      conservative_rect.right - conservative_rect.left
    omega
  refine ⟨?_, hw, ?_⟩
  · intro hne hfs hmax
    subst hfs
    subst hmax
    unfold dpi_changed_new_inner_size
    rw [if_neg hne]
    rfl
  · rw [hw]
    have harg : ((conservative_rect.right - conservative_rect.left : Int) : ℚ) =
        (conservative_rect.right : ℚ) - (conservative_rect.left : ℚ) := by
      push_cast
      ring
    rw [harg]
    show cursor_x -
        (conservative_rect.left +
          dragging_bias cursor_x suggested_rect conservative_rect) =
      trunc_as_long
        (suggested_cursor_horizontal_ratio cursor_x suggested_rect *
          ((conservative_rect.right : ℚ) - (conservative_rect.left : ℚ)))
    unfold dragging_bias
    omega

/-- C4 witness: a window of physical inner size 800 by 600 at scale factor 1
(logical 800 by 600) moved to scale factor 3/2 and neither fullscreen nor
maximized gets physical inner size 1200 by 900; and on a concrete dragging
instance (cursor at 150 inside a suggested rectangle 100..300, conservative
rectangle 100..500) the biased rectangle starts at 50, so the cursor sits at
the same quarter of the 400-wide rectangle. -/
theorem dpi_changed_geometry_spec_witness :
    dpi_changed_new_inner_size 1 (3 / 2) false false (800, 600) =
        some (1200, 900) ∧
    (apply_dragging_bias 150 (Rect.mk 100 0 300 100)
        (Rect.mk 100 0 500 100)).left = 50 := by
  constructor
  · have h := (dpi_changed_geometry_spec 1 (3 / 2) false false (800, 600) 150
      (Rect.mk 100 0 300 100) (Rect.mk 100 0 500 100)).1 (by norm_num) rfl rfl
    rw [h]
    norm_num [to_physical, to_logical, round_eq]
    omega
  · norm_num [apply_dragging_bias, dragging_bias,
      suggested_cursor_horizontal_ratio, trunc_as_long]

/-! ## Message router: per-window mouse state and the window procedure
(`public_window_callback_inner`, event_loop.rs, lines 841-1942) -/

/-- Mouse-related per-window state (`WindowState::mouse`): the capture
reference count, the `CursorFlags::IN_WINDOW` flag and the last reported
cursor position. -/
structure MouseProperties where
  capture_count : Nat
  in_window : Bool
  last_position : Option (Int × Int)
deriving DecidableEq, Repr

/-- Per-window state touched by the embedded message arms: the stored
modifier set (`ModifiersState` bitset, modelled as `Nat`) and the mouse
state. -/
structure WindowState where
  modifiers_state : Nat
  mouse : MouseProperties
deriving DecidableEq, Repr

/-- Element state of a button event. -/
inductive ElementState where
  | Pressed
  | Released
deriving DecidableEq, Repr

/-- Mouse buttons of the embedded button arms. -/
inductive MouseButton where
  | Left
  | Right
  | Middle
deriving DecidableEq, Repr

/-- Window events emitted by the embedded arms of
`public_window_callback_inner`. `KeyboardInput` carries an opaque payload
standing for the `KeyEventBuilder` output; `MouseWheel` marks the
horizontal variant with a flag. -/
inductive WindowEvent where
  | ModifiersChanged (modifiers : Nat)
  | KeyboardInput (payload : Nat)
  | CursorEntered
  | CursorMoved (position : Int × Int) (modifiers : Nat)
  | MouseWheel (horizontal : Bool) (delta : Int) (modifiers : Nat)
  | MouseInput (state : ElementState) (button : MouseButton) (modifiers : Nat)
deriving DecidableEq, Repr

/-- Native messages covered by the embedding: the four key messages, the
pointer messages, and the capture-change notification (which carries the
handle of the window gaining capture). -/
inductive Msg where
  | WM_KEYDOWN
  | WM_SYSKEYDOWN
  | WM_KEYUP
  | WM_SYSKEYUP
  | WM_MOUSEMOVE (position : Int × Int)
  | WM_MOUSEWHEEL (delta : Int)
  | WM_MOUSEHWHEEL (delta : Int)
  | WM_LBUTTONDOWN
  | WM_LBUTTONUP
  | WM_RBUTTONDOWN
  | WM_RBUTTONUP
  | WM_MBUTTONDOWN
  | WM_MBUTTONUP
  | WM_CAPTURECHANGED (gaining_window : Int)
deriving DecidableEq, Repr

/-- Model of `update_modifiers` (event_loop.rs, lines 774-797):
`agnostic_mods` is the modifier set the keyboard layout cache reports
(`layouts.get_agnostic_mods()`); when it differs from the stored
`modifiers_state` the latter is updated and a `ModifiersChanged` event is
emitted. Returns the emitted events, the new state, and the returned
modifier set. -/
def update_modifiers (agnostic_mods : Nat) (s : WindowState) :
    List WindowEvent × WindowState × Nat :=
  if s.modifiers_state ≠ agnostic_mods then
    ([WindowEvent.ModifiersChanged agnostic_mods],
      ({ s with modifiers_state := agnostic_mods }, agnostic_mods))
  else
    ([], (s, agnostic_mods))

/-- Model of `capture_mouse` (event_loop.rs, lines 658-661): increments the
capture count (the native `SetCapture` call is external). -/
def capture_mouse (mouse : MouseProperties) : MouseProperties :=
  { mouse with capture_count := mouse.capture_count + 1 }

/-- Model of `release_mouse` (event_loop.rs, lines 665-672): decrements the
capture count, saturating at zero (the native `ReleaseCapture` call made
when the count reaches zero is external). -/
def release_mouse (mouse : MouseProperties) : MouseProperties :=
  { mouse with capture_count := mouse.capture_count - 1 }

/-- Keyboard-related test gating `keyboard_callback`.
Modelled from the spec: `is_msg_keyboard_related` lives in the keyboard
module, which is not among the provided source files; on the message
universe embedded here exactly the four key messages are
keyboard-related. -/
def is_msg_keyboard_related (msg : Msg) : Bool :=
  match msg with
  | Msg.WM_KEYDOWN | Msg.WM_SYSKEYDOWN | Msg.WM_KEYUP | Msg.WM_SYSKEYUP => true
  | _ => false

/-- Recognizer for the four key messages, mirroring the match of
`mods_changed_callback` (event_loop.rs, lines 859-865). -/
def is_key_message (msg : Msg) : Bool :=
  match msg with
  | Msg.WM_KEYDOWN | Msg.WM_SYSKEYDOWN | Msg.WM_KEYUP | Msg.WM_SYSKEYUP => true
  | _ => false

/-- Model of `mods_changed_callback` (event_loop.rs, lines 858-869): for a
key message the modifiers are updated (emitting `ModifiersChanged` when they
changed) before any key event is sent; other messages are untouched at this
stage. -/
def mods_changed_step (agnostic_mods : Nat) (msg : Msg) (s : WindowState) :
    List WindowEvent × WindowState :=
  if is_key_message msg then
    let um := update_modifiers agnostic_mods s
    (um.1, um.2.1)
  else
    ([], s)

/-- Model of `keyboard_callback` (event_loop.rs, lines 871-899): for a
keyboard-related message, one `KeyboardInput` event per key event produced
by the key event builder; `key_events` stands for that opaque output
list. -/
def keyboard_step (key_events : List Nat) (msg : Msg) : List WindowEvent :=
  if is_msg_keyboard_related msg then
    key_events.map WindowEvent.KeyboardInput
  else
    []

/-- Model of the main `callback` match of `public_window_callback_inner`
restricted to the embedded message universe (`WM_MOUSEMOVE` lines
1102-1156, `WM_MOUSEWHEEL` 1177-1197, `WM_MOUSEHWHEEL` 1199-1219, the six
button arms 1227-1379, `WM_CAPTURECHANGED` 1381-1390; the key messages have
no event-emitting arm there). -/
def main_callback_arm (agnostic_mods : Nat) (window : Int) (msg : Msg)
    (s1 : WindowState) : List WindowEvent × WindowState :=
  match msg with
  | Msg.WM_KEYDOWN | Msg.WM_SYSKEYDOWN | Msg.WM_KEYUP | Msg.WM_SYSKEYUP =>
    (([] : List WindowEvent), s1)
  | Msg.WM_MOUSEMOVE position =>
    let mouse_was_outside_window := !s1.mouse.in_window
    let s2 := { s1 with mouse := { s1.mouse with in_window := true } }
    let entered_events :=
      if mouse_was_outside_window then [WindowEvent.CursorEntered] else []
    let cursor_moved := s2.mouse.last_position ≠ some position
    let s3 :=
      { s2 with mouse := { s2.mouse with last_position := some position } }
    if cursor_moved then
      let um := update_modifiers agnostic_mods s3
      (entered_events ++ um.1 ++
          [WindowEvent.CursorMoved position um.2.2],
        um.2.1)
    else
      (entered_events, s3)
  | Msg.WM_MOUSEWHEEL delta =>
    let um := update_modifiers agnostic_mods s1
    (um.1 ++ [WindowEvent.MouseWheel false delta um.2.2], um.2.1)
  | Msg.WM_MOUSEHWHEEL delta =>
    let um := update_modifiers agnostic_mods s1
    (um.1 ++ [WindowEvent.MouseWheel true delta um.2.2], um.2.1)
  | Msg.WM_LBUTTONDOWN =>
    let s2 := { s1 with mouse := capture_mouse s1.mouse }
    let um := update_modifiers agnostic_mods s2
    (um.1 ++ [WindowEvent.MouseInput ElementState.Pressed MouseButton.Left
      um.2.2], um.2.1)
  | Msg.WM_LBUTTONUP =>
    let s2 := { s1 with mouse := release_mouse s1.mouse }
    let um := update_modifiers agnostic_mods s2
    (um.1 ++ [WindowEvent.MouseInput ElementState.Released MouseButton.Left
      um.2.2], um.2.1)
  | Msg.WM_RBUTTONDOWN =>
    let s2 := { s1 with mouse := capture_mouse s1.mouse }
    let um := update_modifiers agnostic_mods s2
    (um.1 ++ [WindowEvent.MouseInput ElementState.Pressed MouseButton.Right
      um.2.2], um.2.1)
  | Msg.WM_RBUTTONUP =>
    let s2 := { s1 with mouse := release_mouse s1.mouse }
    let um := update_modifiers agnostic_mods s2
    (um.1 ++ [WindowEvent.MouseInput ElementState.Released MouseButton.Right
      um.2.2], um.2.1)
  | Msg.WM_MBUTTONDOWN =>
    let s2 := { s1 with mouse := capture_mouse s1.mouse }
    let um := update_modifiers agnostic_mods s2
    (um.1 ++ [WindowEvent.MouseInput ElementState.Pressed MouseButton.Middle
      um.2.2], um.2.1)
  | Msg.WM_MBUTTONUP =>
    let s2 := { s1 with mouse := release_mouse s1.mouse }
    let um := update_modifiers agnostic_mods s2
    (um.1 ++ [WindowEvent.MouseInput ElementState.Released MouseButton.Middle
      um.2.2], um.2.1)
  | Msg.WM_CAPTURECHANGED gaining_window =>
    if gaining_window ≠ window then
      (([] : List WindowEvent),
        { s1 with mouse := { s1.mouse with capture_count := 0 } })
    else
      (([] : List WindowEvent), s1)

/-- Model of `public_window_callback_inner` (event_loop.rs) restricted to
the embedded message universe. The handler runs, in source order:
`mods_changed_callback` (update the modifiers before any key event),
`keyboard_callback`, and then the relevant arm of the main `callback`
match. It returns the emitted events in order and the final window
state. -/
def public_window_callback_inner (agnostic_mods : Nat) (key_events : List Nat)
    (window : Int) (msg : Msg) (s : WindowState) :
    List WindowEvent × WindowState :=
  let mods_step := mods_changed_step agnostic_mods msg s
  let keyboard_events := keyboard_step key_events msg
  let main_step := main_callback_arm agnostic_mods window msg mods_step.2
  (mods_step.1 ++ keyboard_events ++ main_step.1, main_step.2)

/-- Sequential processing of a list of native messages delivered to the
same window, threading the window state and concatenating the emitted
events in order. -/
def process_messages (agnostic_mods : Nat) (key_events : List Nat)
    (window : Int) (msgs : List Msg) (s : WindowState) :
    List WindowEvent × WindowState :=
  match msgs with
  | [] => ([], s)
  | msg :: rest =>
    let step :=
      public_window_callback_inner agnostic_mods key_events window msg s
    let next := process_messages agnostic_mods key_events window rest step.2
    (step.1 ++ next.1, next.2)

/-- Recognizer for `ModifiersChanged` events. -/
def is_modifiers_changed (e : WindowEvent) : Bool :=
  match e with
  | WindowEvent.ModifiersChanged _ => true
  | _ => false

/-- Recognizer for the key/pointer events that carry (depend on) the
modifier state computed for their message: key events and the pointer
events whose payload includes the modifier set. -/
def is_modifier_dependent (e : WindowEvent) : Bool :=
  match e with
  | WindowEvent.KeyboardInput _ => true
  | WindowEvent.CursorMoved _ _ => true
  | WindowEvent.MouseWheel _ _ _ => true
  | WindowEvent.MouseInput _ _ _ => true
  | _ => false

/-- Recognizer for `CursorEntered` events. -/
def is_cursor_entered (e : WindowEvent) : Bool :=
  match e with
  | WindowEvent.CursorEntered => true
  | _ => false

/-- Recognizer for `CursorMoved` events. -/
def is_cursor_moved (e : WindowEvent) : Bool :=
  match e with
  | WindowEvent.CursorMoved _ _ => true
  | _ => false

/-- Helper: `ModifiersChanged` events are not modifier-dependent. -/
theorem not_dep_of_mc (e : WindowEvent) (h : is_modifiers_changed e = true) :
    is_modifier_dependent e = false := by
  cases e <;> simp_all [is_modifiers_changed, is_modifier_dependent]

/-- Helper: mapped keyboard events are never `ModifiersChanged`. -/
theorem keyboard_events_not_mc (key_events : List Nat) :
    ∀ e ∈ key_events.map WindowEvent.KeyboardInput,
      is_modifiers_changed e = false := by
  intro e he
  obtain ⟨p, _, rfl⟩ := List.mem_map.mp he
  rfl

/-- Helper: in a concatenation whose prefix holds no modifier-dependent
event and whose suffix holds no `ModifiersChanged` event, every
`ModifiersChanged` index lies strictly below every modifier-dependent
index. -/
theorem mc_before_dep_of_split (out pre rest : List WindowEvent)
    (hout : out = pre ++ rest)
    (hpre : ∀ e ∈ pre, is_modifier_dependent e = false)
    (hrest : ∀ e ∈ rest, is_modifiers_changed e = false)
    (i j : Nat) (hi : i < out.length) (hj : j < out.length)
    (hmc : is_modifiers_changed out[i] = true)
    (hdep : is_modifier_dependent out[j] = true) :
    i < j := by
  subst hout
  have hilt : i < pre.length := by
    by_contra hge
    push_neg at hge
    rw [List.getElem_append_right hge] at hmc
    rw [hrest _ (List.getElem_mem _)] at hmc
    exact absurd hmc (by simp)
  have hjge : pre.length ≤ j := by
    by_contra hlt
    push_neg at hlt
    rw [List.getElem_append_left hlt] at hdep
    rw [hpre _ (List.getElem_mem _)] at hdep
    exact absurd hdep (by simp)
  omega

/-- Helper: the event list emitted by `public_window_callback_inner` splits
into a prefix holding no modifier-dependent event followed by a suffix
holding no `ModifiersChanged` event; moreover, when the stored modifier set
already equals the reported one, the prefix holds no `ModifiersChanged`
event either. -/
theorem callback_inner_event_shape (agnostic_mods : Nat) (key_events : List Nat)
    (window : Int) (msg : Msg) (s : WindowState) :
    ∃ pre rest,
      (public_window_callback_inner agnostic_mods key_events window msg s).1 =
          pre ++ rest ∧
      (∀ e ∈ pre, is_modifier_dependent e = false) ∧
      (∀ e ∈ rest, is_modifiers_changed e = false) ∧
      (s.modifiers_state = agnostic_mods →
        ∀ e ∈ pre, is_modifiers_changed e = false) := by
  by_cases hm : s.modifiers_state = agnostic_mods
  all_goals cases msg
  · refine ⟨[], key_events.map WindowEvent.KeyboardInput, ?_,
      by simp, keyboard_events_not_mc key_events, by simp⟩
    simp [public_window_callback_inner, mods_changed_step, keyboard_step,
      main_callback_arm, is_key_message, is_msg_keyboard_related,
      update_modifiers, hm]
  · refine ⟨[], key_events.map WindowEvent.KeyboardInput, ?_,
      by simp, keyboard_events_not_mc key_events, by simp⟩
    simp [public_window_callback_inner, mods_changed_step, keyboard_step,
      main_callback_arm, is_key_message, is_msg_keyboard_related,
      update_modifiers, hm]
  · refine ⟨[], key_events.map WindowEvent.KeyboardInput, ?_,
      by simp, keyboard_events_not_mc key_events, by simp⟩
    simp [public_window_callback_inner, mods_changed_step, keyboard_step,
      main_callback_arm, is_key_message, is_msg_keyboard_related,
      update_modifiers, hm]
  · refine ⟨[], key_events.map WindowEvent.KeyboardInput, ?_,
      by simp, keyboard_events_not_mc key_events, by simp⟩
    simp [public_window_callback_inner, mods_changed_step, keyboard_step,
      main_callback_arm, is_key_message, is_msg_keyboard_related,
      update_modifiers, hm]
  · rename_i position
    by_cases hmoved : s.mouse.last_position = some position
    · cases hin : s.mouse.in_window
      · refine ⟨[], [WindowEvent.CursorEntered], ?_,
          by simp, by simp [is_modifiers_changed], by simp⟩
        simp [public_window_callback_inner, mods_changed_step, keyboard_step,
      main_callback_arm, is_key_message, is_msg_keyboard_related,
      update_modifiers, hmoved, hin]
      · refine ⟨[], [], ?_, by simp, by simp, by simp⟩
        simp [public_window_callback_inner, mods_changed_step, keyboard_step,
      main_callback_arm, is_key_message, is_msg_keyboard_related,
      update_modifiers, hmoved, hin]
    · cases hin : s.mouse.in_window
      · refine ⟨[WindowEvent.CursorEntered],
          [WindowEvent.CursorMoved position agnostic_mods], ?_,
          by simp [is_modifier_dependent], by simp [is_modifiers_changed],
          by simp [is_modifiers_changed]⟩
        simp [public_window_callback_inner, mods_changed_step, keyboard_step,
      main_callback_arm, is_key_message, is_msg_keyboard_related,
      update_modifiers, hmoved, hin, hm]
      · refine ⟨[], [WindowEvent.CursorMoved position agnostic_mods], ?_,
          by simp, by simp [is_modifiers_changed], by simp⟩
        simp [public_window_callback_inner, mods_changed_step, keyboard_step,
      main_callback_arm, is_key_message, is_msg_keyboard_related,
      update_modifiers, hmoved, hin, hm]
  · rename_i delta
    refine ⟨[], [WindowEvent.MouseWheel false delta agnostic_mods], ?_,
      by simp, by simp [is_modifiers_changed], by simp⟩
    simp [public_window_callback_inner, mods_changed_step, keyboard_step,
      main_callback_arm, is_key_message, is_msg_keyboard_related,
      update_modifiers, hm]
  · rename_i delta
    refine ⟨[], [WindowEvent.MouseWheel true delta agnostic_mods], ?_,
      by simp, by simp [is_modifiers_changed], by simp⟩
    simp [public_window_callback_inner, mods_changed_step, keyboard_step,
      main_callback_arm, is_key_message, is_msg_keyboard_related,
      update_modifiers, hm]
  · refine ⟨[], [WindowEvent.MouseInput ElementState.Pressed MouseButton.Left
        agnostic_mods], ?_,
      by simp, by simp [is_modifiers_changed], by simp⟩
    simp [public_window_callback_inner, mods_changed_step, keyboard_step,
      main_callback_arm, is_key_message, is_msg_keyboard_related,
      update_modifiers, hm]
  · refine ⟨[], [WindowEvent.MouseInput ElementState.Released MouseButton.Left
        agnostic_mods], ?_,
      by simp, by simp [is_modifiers_changed], by simp⟩
    simp [public_window_callback_inner, mods_changed_step, keyboard_step,
      main_callback_arm, is_key_message, is_msg_keyboard_related,
      update_modifiers, hm]
  · refine ⟨[], [WindowEvent.MouseInput ElementState.Pressed MouseButton.Right
        agnostic_mods], ?_,
      by simp, by simp [is_modifiers_changed], by simp⟩
    simp [public_window_callback_inner, mods_changed_step, keyboard_step,
      main_callback_arm, is_key_message, is_msg_keyboard_related,
      update_modifiers, hm]
  · refine ⟨[], [WindowEvent.MouseInput ElementState.Released MouseButton.Right
        agnostic_mods], ?_,
      by simp, by simp [is_modifiers_changed], by simp⟩
    simp [public_window_callback_inner, mods_changed_step, keyboard_step,
      main_callback_arm, is_key_message, is_msg_keyboard_related,
      update_modifiers, hm]
  · refine ⟨[], [WindowEvent.MouseInput ElementState.Pressed MouseButton.Middle
        agnostic_mods], ?_,
      by simp, by simp [is_modifiers_changed], by simp⟩
    simp [public_window_callback_inner, mods_changed_step, keyboard_step,
      main_callback_arm, is_key_message, is_msg_keyboard_related,
      update_modifiers, hm]
  · refine ⟨[], [WindowEvent.MouseInput ElementState.Released MouseButton.Middle
        agnostic_mods], ?_,
      by simp, by simp [is_modifiers_changed], by simp⟩
    simp [public_window_callback_inner, mods_changed_step, keyboard_step,
      main_callback_arm, is_key_message, is_msg_keyboard_related,
      update_modifiers, hm]
  · rename_i gaining_window
    refine ⟨[], [], ?_, by simp, by simp, by simp⟩
    simp [public_window_callback_inner, mods_changed_step, keyboard_step,
      main_callback_arm, is_key_message, is_msg_keyboard_related,
      update_modifiers]
    split_ifs <;> simp
  · refine ⟨[WindowEvent.ModifiersChanged agnostic_mods],
      key_events.map WindowEvent.KeyboardInput, ?_,
      by simp [is_modifier_dependent], keyboard_events_not_mc key_events,
      fun h => absurd h hm⟩
    simp [public_window_callback_inner, mods_changed_step, keyboard_step,
      main_callback_arm, is_key_message, is_msg_keyboard_related,
      update_modifiers, hm]
  · refine ⟨[WindowEvent.ModifiersChanged agnostic_mods],
      key_events.map WindowEvent.KeyboardInput, ?_,
      by simp [is_modifier_dependent], keyboard_events_not_mc key_events,
      fun h => absurd h hm⟩
    simp [public_window_callback_inner, mods_changed_step, keyboard_step,
      main_callback_arm, is_key_message, is_msg_keyboard_related,
      update_modifiers, hm]
  · refine ⟨[WindowEvent.ModifiersChanged agnostic_mods],
      key_events.map WindowEvent.KeyboardInput, ?_,
      by simp [is_modifier_dependent], keyboard_events_not_mc key_events,
      fun h => absurd h hm⟩
    simp [public_window_callback_inner, mods_changed_step, keyboard_step,
      main_callback_arm, is_key_message, is_msg_keyboard_related,
      update_modifiers, hm]
  · refine ⟨[WindowEvent.ModifiersChanged agnostic_mods],
      key_events.map WindowEvent.KeyboardInput, ?_,
      by simp [is_modifier_dependent], keyboard_events_not_mc key_events,
      fun h => absurd h hm⟩
    simp [public_window_callback_inner, mods_changed_step, keyboard_step,
      main_callback_arm, is_key_message, is_msg_keyboard_related,
      update_modifiers, hm]
  · rename_i position
    by_cases hmoved : s.mouse.last_position = some position
    · cases hin : s.mouse.in_window
      · refine ⟨[], [WindowEvent.CursorEntered], ?_,
          by simp, by simp [is_modifiers_changed], by simp⟩
        simp [public_window_callback_inner, mods_changed_step, keyboard_step,
      main_callback_arm, is_key_message, is_msg_keyboard_related,
      update_modifiers, hmoved, hin]
      · refine ⟨[], [], ?_, by simp, by simp, by simp⟩
        simp [public_window_callback_inner, mods_changed_step, keyboard_step,
      main_callback_arm, is_key_message, is_msg_keyboard_related,
      update_modifiers, hmoved, hin]
    · cases hin : s.mouse.in_window
      · refine ⟨[WindowEvent.CursorEntered,
            WindowEvent.ModifiersChanged agnostic_mods],
          [WindowEvent.CursorMoved position agnostic_mods], ?_, ?_,
          by simp [is_modifiers_changed], fun h => absurd h hm⟩
        · simp [public_window_callback_inner, mods_changed_step, keyboard_step,
      main_callback_arm, is_key_message, is_msg_keyboard_related,
      update_modifiers, hmoved, hin, hm]
        · intro e he
          simp at he
          rcases he with rfl | rfl <;> rfl
      · refine ⟨[WindowEvent.ModifiersChanged agnostic_mods],
          [WindowEvent.CursorMoved position agnostic_mods], ?_,
          by simp [is_modifier_dependent], by simp [is_modifiers_changed],
          fun h => absurd h hm⟩
        simp [public_window_callback_inner, mods_changed_step, keyboard_step,
      main_callback_arm, is_key_message, is_msg_keyboard_related,
      update_modifiers, hmoved, hin, hm]
  · rename_i delta
    refine ⟨[WindowEvent.ModifiersChanged agnostic_mods],
      [WindowEvent.MouseWheel false delta agnostic_mods], ?_,
      by simp [is_modifier_dependent], by simp [is_modifiers_changed],
      fun h => absurd h hm⟩
    simp [public_window_callback_inner, mods_changed_step, keyboard_step,
      main_callback_arm, is_key_message, is_msg_keyboard_related,
      update_modifiers, hm]
  · rename_i delta
    refine ⟨[WindowEvent.ModifiersChanged agnostic_mods],
      [WindowEvent.MouseWheel true delta agnostic_mods], ?_,
      by simp [is_modifier_dependent], by simp [is_modifiers_changed],
      fun h => absurd h hm⟩
    simp [public_window_callback_inner, mods_changed_step, keyboard_step,
      main_callback_arm, is_key_message, is_msg_keyboard_related,
      update_modifiers, hm]
  · refine ⟨[WindowEvent.ModifiersChanged agnostic_mods],
      [WindowEvent.MouseInput ElementState.Pressed MouseButton.Left
        agnostic_mods], ?_,
      by simp [is_modifier_dependent], by simp [is_modifiers_changed],
      fun h => absurd h hm⟩
    simp [public_window_callback_inner, mods_changed_step, keyboard_step,
      main_callback_arm, is_key_message, is_msg_keyboard_related,
      update_modifiers, hm]
  · refine ⟨[WindowEvent.ModifiersChanged agnostic_mods],
      [WindowEvent.MouseInput ElementState.Released MouseButton.Left
        agnostic_mods], ?_,
      by simp [is_modifier_dependent], by simp [is_modifiers_changed],
      fun h => absurd h hm⟩
    simp [public_window_callback_inner, mods_changed_step, keyboard_step,
      main_callback_arm, is_key_message, is_msg_keyboard_related,
      update_modifiers, hm]
  · refine ⟨[WindowEvent.ModifiersChanged agnostic_mods],
      [WindowEvent.MouseInput ElementState.Pressed MouseButton.Right
        agnostic_mods], ?_,
      by simp [is_modifier_dependent], by simp [is_modifiers_changed],
      fun h => absurd h hm⟩
    simp [public_window_callback_inner, mods_changed_step, keyboard_step,
      main_callback_arm, is_key_message, is_msg_keyboard_related,
      update_modifiers, hm]
  · refine ⟨[WindowEvent.ModifiersChanged agnostic_mods],
      [WindowEvent.MouseInput ElementState.Released MouseButton.Right
        agnostic_mods], ?_,
      by simp [is_modifier_dependent], by simp [is_modifiers_changed],
      fun h => absurd h hm⟩
    simp [public_window_callback_inner, mods_changed_step, keyboard_step,
      main_callback_arm, is_key_message, is_msg_keyboard_related,
      update_modifiers, hm]
  · refine ⟨[WindowEvent.ModifiersChanged agnostic_mods],
      [WindowEvent.MouseInput ElementState.Pressed MouseButton.Middle
        agnostic_mods], ?_,
      by simp [is_modifier_dependent], by simp [is_modifiers_changed],
      fun h => absurd h hm⟩
    simp [public_window_callback_inner, mods_changed_step, keyboard_step,
      main_callback_arm, is_key_message, is_msg_keyboard_related,
      update_modifiers, hm]
  · refine ⟨[WindowEvent.ModifiersChanged agnostic_mods],
      [WindowEvent.MouseInput ElementState.Released MouseButton.Middle
        agnostic_mods], ?_,
      by simp [is_modifier_dependent], by simp [is_modifiers_changed],
      fun h => absurd h hm⟩
    simp [public_window_callback_inner, mods_changed_step, keyboard_step,
      main_callback_arm, is_key_message, is_msg_keyboard_related,
      update_modifiers, hm]
  · rename_i gaining_window
    refine ⟨[], [], ?_, by simp, by simp, by simp⟩
    simp [public_window_callback_inner, mods_changed_step, keyboard_step,
      main_callback_arm, is_key_message, is_msg_keyboard_related,
      update_modifiers]
    split_ifs <;> simp

/-- C3: for every embedded native key or pointer message, any
`ModifiersChanged` event emitted while processing that message appears in
the output strictly before every event of the same message that depends on
the modifier state (the key events and the pointer events carrying the
modifier set); and when the computed modifier set equals the stored one, no
`ModifiersChanged` event is emitted at all for that message. -/
theorem modifiers_changed_before_dependent_spec (agnostic_mods : Nat)
    (key_events : List Nat) (window : Int) (msg : Msg) (s : WindowState) :
    (s.modifiers_state = agnostic_mods →
      ∀ e ∈ (public_window_callback_inner agnostic_mods key_events window
          msg s).1,
        is_modifiers_changed e = false) ∧
    (∀ i j
      (hi : i < (public_window_callback_inner agnostic_mods key_events window
        msg s).1.length)
      (hj : j < (public_window_callback_inner agnostic_mods key_events window
        msg s).1.length),
      is_modifiers_changed
          ((public_window_callback_inner agnostic_mods key_events window
            msg s).1[i]) = true →
        is_modifier_dependent
          ((public_window_callback_inner agnostic_mods key_events window
            msg s).1[j]) = true →
        i < j) := by
  obtain ⟨pre, rest, hout, hpre, hrest, hmcall⟩ :=
    callback_inner_event_shape agnostic_mods key_events window msg s
  constructor
  · intro hmods e he
    rw [hout] at he
    rcases List.mem_append.mp he with h | h
    · exact hmcall hmods e h
    · exact hrest e h
  · intro i j hi hj hmc hdep
    exact mc_before_dep_of_split _ pre rest hout hpre hrest i j hi hj hmc hdep

/-- C3 witness: on a key-down with stored modifiers 1 and reported
modifiers 2 the output is the modifier change followed by the key event (so
the change sits at index 0, before the dependent event at index 1); with
stored modifiers equal to the reported ones no `ModifiersChanged` event
appears. -/
theorem modifiers_changed_before_dependent_spec_witness :
    (∀ e ∈ (public_window_callback_inner 1 [7] 0 Msg.WM_KEYDOWN
        { modifiers_state := 1,
          mouse := { capture_count := 0, in_window := false,
                     last_position := none } }).1,
      is_modifiers_changed e = false) ∧
    (0 : Nat) < 1 := by
  constructor
  · exact (modifiers_changed_before_dependent_spec 1 [7] 0 Msg.WM_KEYDOWN
      { modifiers_state := 1,
        mouse := { capture_count := 0, in_window := false,
                   last_position := none } }).1 rfl
  · exact (modifiers_changed_before_dependent_spec 2 [7] 0 Msg.WM_KEYDOWN
      { modifiers_state := 1,
        mouse := { capture_count := 0, in_window := false,
                   last_position := none } }).2 0 1 (by decide) (by decide)
      (by decide) (by decide)

/-- Helper: a `WM_MOUSEMOVE` whose position equals the stored last position
while the cursor is already inside the window emits no event and leaves the
window state unchanged (the spurious-mousemove suppression of lines
1102-1156). -/
theorem mousemove_stationary (agnostic_mods : Nat) (key_events : List Nat)
    (window : Int) (position : Int × Int) (s : WindowState)
    (hin : s.mouse.in_window = true)
    (hpos : s.mouse.last_position = some position) :
    public_window_callback_inner agnostic_mods key_events window
      (Msg.WM_MOUSEMOVE position) s = ([], s) := by
  obtain ⟨mods, cc, iw, lp⟩ := s
  simp only at hin hpos
  subst hin
  subst hpos
  simp [public_window_callback_inner, mods_changed_step, keyboard_step,
    main_callback_arm, is_key_message, is_msg_keyboard_related]

/-- Helper: after any `WM_MOUSEMOVE`, the stored state records the cursor
inside the window with the reported position as last position. -/
theorem mousemove_post_state (agnostic_mods : Nat) (key_events : List Nat)
    (window : Int) (position : Int × Int) (s : WindowState) :
    (public_window_callback_inner agnostic_mods key_events window
        (Msg.WM_MOUSEMOVE position) s).2.mouse.in_window = true ∧
    (public_window_callback_inner agnostic_mods key_events window
        (Msg.WM_MOUSEMOVE position) s).2.mouse.last_position = some position := by
  simp [public_window_callback_inner, mods_changed_step, keyboard_step,
    main_callback_arm, is_key_message, is_msg_keyboard_related,
    update_modifiers]
  split_ifs <;> simp

/-- Helper: processing any number of `WM_MOUSEMOVE` messages at the stored
position with the cursor already inside the window emits nothing and is
stationary. -/
theorem process_messages_stationary (agnostic_mods : Nat)
    (key_events : List Nat) (window : Int) (position : Int × Int) (n : Nat)
    (s : WindowState) (hin : s.mouse.in_window = true)
    (hpos : s.mouse.last_position = some position) :
    process_messages agnostic_mods key_events window
      (List.replicate n (Msg.WM_MOUSEMOVE position)) s = ([], s) := by
  induction n with
  | zero => rfl
  | succ n ih =>
    rw [List.replicate_succ]
    simp only [process_messages]
    rw [mousemove_stationary agnostic_mods key_events window position s hin
      hpos]
    simpa using ih

/-- C2: for every sequence of `WM_MOUSEMOVE` messages with identical
coordinates delivered to a window the cursor starts outside of, all events
come from the first message (the later duplicates emit nothing, in
particular zero `CursorMoved` events), and the first message emits exactly
one `CursorEntered` event. -/
theorem duplicate_mousemove_spec (agnostic_mods : Nat) (key_events : List Nat)
    (window : Int) (position : Int × Int) (s : WindowState) (n : Nat)
    (houtside : s.mouse.in_window = false) :
    (process_messages agnostic_mods key_events window
        (List.replicate (n + 1) (Msg.WM_MOUSEMOVE position)) s).1 =
      (public_window_callback_inner agnostic_mods key_events window
        (Msg.WM_MOUSEMOVE position) s).1 ∧
    (public_window_callback_inner agnostic_mods key_events window
        (Msg.WM_MOUSEMOVE position) s).1.countP is_cursor_entered = 1 := by
  constructor
  · rw [List.replicate_succ]
    simp only [process_messages]
    obtain ⟨hin, hpos⟩ :=
      mousemove_post_state agnostic_mods key_events window position s
    rw [process_messages_stationary agnostic_mods key_events window position n
      _ hin hpos]
    simp
  · obtain ⟨mods, cc, iw, lp⟩ := s
    simp only at houtside
    subst houtside
    simp [public_window_callback_inner, mods_changed_step, keyboard_step,
      main_callback_arm, is_key_message, is_msg_keyboard_related,
      update_modifiers]
    split_ifs <;>
      simp [List.countP_cons, List.countP_append, is_cursor_entered,
        is_modifiers_changed]

/-- C2 witness: three identical mouse moves starting outside the window at
a fresh state produce exactly the events of the first message, namely one
`CursorEntered` followed by one `CursorMoved`, and nothing afterwards. -/
theorem duplicate_mousemove_spec_witness :
    (process_messages 0 [] 5
        (List.replicate 3 (Msg.WM_MOUSEMOVE (3, 4)))
        { modifiers_state := 0,
          mouse := { capture_count := 0, in_window := false,
                     last_position := none } }).1 =
      (public_window_callback_inner 0 [] 5 (Msg.WM_MOUSEMOVE (3, 4))
        { modifiers_state := 0,
          mouse := { capture_count := 0, in_window := false,
                     last_position := none } }).1 ∧
    (public_window_callback_inner 0 [] 5 (Msg.WM_MOUSEMOVE (3, 4))
        { modifiers_state := 0,
          mouse := { capture_count := 0, in_window := false,
                     last_position := none } }).1.countP is_cursor_entered =
      1 := by
  exact duplicate_mousemove_spec 0 [] 5 (3, 4)
    { modifiers_state := 0,
      mouse := { capture_count := 0, in_window := false,
                 last_position := none } } 2 rfl

/-- C9: on a `WM_CAPTURECHANGED` notification, the capture count is reset
to zero exactly when the window gaining capture differs from the window
receiving the message, and the rest of the window state is untouched; when
a window regains capture of itself the whole window state is left
unchanged, and no event is emitted either way. -/
theorem capture_changed_spec (agnostic_mods : Nat) (key_events : List Nat)
    (window gaining_window : Int) (s : WindowState) :
    (gaining_window ≠ window →
      public_window_callback_inner agnostic_mods key_events window
          (Msg.WM_CAPTURECHANGED gaining_window) s =
        ([], { s with mouse := { s.mouse with capture_count := 0 } })) ∧
    (gaining_window = window →
      public_window_callback_inner agnostic_mods key_events window
          (Msg.WM_CAPTURECHANGED gaining_window) s =
        ([], s)) := by
  constructor <;> intro h <;>
    simp [public_window_callback_inner, mods_changed_step, keyboard_step,
      main_callback_arm, is_key_message, is_msg_keyboard_related, h]

/-- C9 witness: a capture-change to a different window clears a capture
count of 3 and leaves the other fields alone; a self-recapture leaves the
state bit-for-bit unchanged. -/
theorem capture_changed_spec_witness :
    public_window_callback_inner 0 [] 5 (Msg.WM_CAPTURECHANGED 6)
        { modifiers_state := 2,
          mouse := { capture_count := 3, in_window := true,
                     last_position := some (1, 2) } } =
      ([], { modifiers_state := 2,
             mouse := { capture_count := 0, in_window := true,
                        last_position := some (1, 2) } }) ∧
    public_window_callback_inner 0 [] 5 (Msg.WM_CAPTURECHANGED 5)
        { modifiers_state := 2,
          mouse := { capture_count := 3, in_window := true,
                     last_position := some (1, 2) } } =
      ([], { modifiers_state := 2,
             mouse := { capture_count := 3, in_window := true,
                        last_position := some (1, 2) } }) :=
  ⟨(capture_changed_spec 0 [] 5 6
      { modifiers_state := 2,
        mouse := { capture_count := 3, in_window := true,
                   last_position := some (1, 2) } }).1 (by decide),
   (capture_changed_spec 0 [] 5 5
      { modifiers_state := 2,
        mouse := { capture_count := 3, in_window := true,
                   last_position := some (1, 2) } }).2 rfl⟩

/-! ## C8: raw keyboard input handling (`handle_raw_input`, lines 2161-2271) -/

/-- Numeric value of `winuser::WM_KEYDOWN`. -/
def WM_KEYDOWN : Nat := 0x0100

/-- Numeric value of `winuser::WM_KEYUP`. -/
def WM_KEYUP : Nat := 0x0101

/-- Numeric value of `winuser::WM_SYSKEYDOWN`. -/
def WM_SYSKEYDOWN : Nat := 0x0104

/-- Numeric value of `winuser::WM_SYSKEYUP`. -/
def WM_SYSKEYUP : Nat := 0x0105

/-- Numeric value of `winuser::RI_KEY_E0`. -/
def RI_KEY_E0 : Nat := 2

/-- Numeric value of `winuser::RI_KEY_E1`. -/
def RI_KEY_E1 : Nat := 4

/-- Numeric value of `winuser::VK_SHIFT`. -/
def VK_SHIFT : Nat := 0x10

/-- Numeric value of `winuser::VK_NUMLOCK`. -/
def VK_NUMLOCK : Nat := 0x90

/-- Bit-flag test.
Modelled from the spec: `util::has_flag` lives in the windows util module,
which is not among the provided source files; it checks that every bit of
`flag` is set in `bitset`. -/
def has_flag (bitset flag : Nat) : Bool :=
  bitset &&& flag == flag

/-- Key codes relevant to the raw-input suppression logic; every other
decoded key is collapsed into `OtherKey`. -/
inductive KeyCode where
  | NumLock
  | NumpadDecimal
  | Numpad0
  | Numpad1
  | Numpad2
  | Numpad3
  | Numpad4
  | Numpad5
  | Numpad6
  | Numpad7
  | Numpad8
  | Numpad9
  | OtherKey (scancode : Nat)
deriving DecidableEq, Repr

/-- Raw key event emitted as a device event. -/
structure RawKeyEvent where
  physical_key : KeyCode
  state : ElementState
deriving DecidableEq, Repr

/-- Fields of the `RAWKEYBOARD` report used by `handle_raw_input`. -/
structure RawKeyboardData where
  Message : Nat
  MakeCode : Nat
  Flags : Nat
  VKey : Nat
deriving DecidableEq, Repr

/-- Scancode computation of `handle_raw_input` (event_loop.rs, lines
2174-2190): the E0/E1 extension prefix is taken from the flags, and a zero
make code falls back to mapping the virtual key
(`MapVirtualKeyW(vkey, MAPVK_VK_TO_VSC_EX)`, abstracted as
`vk_to_vsc_ex`). -/
def raw_key_scancode (vk_to_vsc_ex : Nat → Nat) (kb : RawKeyboardData) : Nat :=
  let extension :=
    if has_flag kb.Flags RI_KEY_E0 then 0xE000
    else if has_flag kb.Flags RI_KEY_E1 then 0xE100
    else 0x0000
  if kb.MakeCode == 0 then
    vk_to_vsc_ex kb.VKey
  else
    kb.MakeCode ||| extension

/-- Numpad keys targeted by the synthetic-shift suppression (the match of
event_loop.rs, lines 2233-2244). -/
def is_numpad_shift_code (code : KeyCode) : Bool :=
  match code with
  | KeyCode.NumpadDecimal | KeyCode.Numpad0 | KeyCode.Numpad1
  | KeyCode.Numpad2 | KeyCode.Numpad3 | KeyCode.Numpad4 | KeyCode.Numpad5
  | KeyCode.Numpad6 | KeyCode.Numpad7 | KeyCode.Numpad8
  | KeyCode.Numpad9 => true
  | _ => false

/-- Model of the keyboard branch of `handle_raw_input` (event_loop.rs,
lines 2161-2271). `from_scancode` abstracts `KeyCode::from_scancode` of the
keyboard module (not among the provided source files) and `vk_to_vsc_ex`
abstracts `MapVirtualKeyW`. Returns the device key event sent, or `none`
when the report is swallowed. -/
def handle_raw_keyboard_input (from_scancode : Nat → KeyCode)
    (vk_to_vsc_ex : Nat → Nat) (kb : RawKeyboardData) : Option RawKeyEvent :=
  let pressed := kb.Message == WM_KEYDOWN || kb.Message == WM_SYSKEYDOWN
  let released := kb.Message == WM_KEYUP || kb.Message == WM_SYSKEYUP
  if !pressed && !released then
    none
  else
    let state := if pressed then ElementState.Pressed else ElementState.Released
    let scancode := raw_key_scancode vk_to_vsc_ex kb
    if scancode == 0xE11D || scancode == 0xE02A then
      none
    else
      let code :=
        if kb.VKey == VK_NUMLOCK then KeyCode.NumLock
        else from_scancode scancode
      if kb.VKey == VK_SHIFT && is_numpad_shift_code code then
        none
      else
        some { physical_key := code, state := state }

/-- C8: a raw keyboard report whose computed scancode is `0xE11D` or
`0xE02A` (the first half of a Pause / PrintScreen double-report) produces
no device key event at all; and a report whose virtual key is Shift but
whose scancode decodes to a numeric-pad key (the synthetic shift report of
a numpad keypress under Shift) is suppressed entirely, for every decoding
table. -/
theorem handle_raw_keyboard_input_spec (from_scancode : Nat → KeyCode)
    (vk_to_vsc_ex : Nat → Nat) (kb : RawKeyboardData) :
    (raw_key_scancode vk_to_vsc_ex kb = 0xE11D ∨
        raw_key_scancode vk_to_vsc_ex kb = 0xE02A →
      handle_raw_keyboard_input from_scancode vk_to_vsc_ex kb = none) ∧
    (kb.VKey = VK_SHIFT →
      is_numpad_shift_code
          (from_scancode (raw_key_scancode vk_to_vsc_ex kb)) = true →
      handle_raw_keyboard_input from_scancode vk_to_vsc_ex kb = none) := by
  constructor
  · intro hsc
    unfold handle_raw_keyboard_input
    rcases hsc with h | h <;> rw [h] <;> split_ifs <;> simp_all
  · intro hvk hnum
    have hvkne : kb.VKey ≠ VK_NUMLOCK := by
      rw [hvk]
      unfold VK_SHIFT VK_NUMLOCK
      omega
    unfold handle_raw_keyboard_input
    split_ifs <;> simp_all

/-- C8 witness: the first half of a Pause report (make code `0x1D` with the
E1 flag, i.e. scancode `0xE11D`) is swallowed, and a Shift-flagged report
whose scancode decodes to `Numpad0` is suppressed, under a concrete
decoding table. -/
theorem handle_raw_keyboard_input_spec_witness :
    handle_raw_keyboard_input (fun _ => KeyCode.Numpad0) (fun v => v)
        { Message := 0x0100, MakeCode := 0x1D, Flags := 4, VKey := 0x11 } =
      none ∧
    handle_raw_keyboard_input (fun _ => KeyCode.Numpad0) (fun v => v)
        { Message := 0x0100, MakeCode := 0x52, Flags := 0, VKey := 0x10 } =
      none :=
  ⟨(handle_raw_keyboard_input_spec (fun _ => KeyCode.Numpad0) (fun v => v)
      { Message := 0x0100, MakeCode := 0x1D, Flags := 4, VKey := 0x11 }).1
      (Or.inl (by decide)),
   (handle_raw_keyboard_input_spec (fun _ => KeyCode.Numpad0) (fun v => v)
      { Message := 0x0100, MakeCode := 0x52, Flags := 0, VKey := 0x10 }).2
      (by decide) (by decide)⟩
